import Mathlib

/-!
Shallow embedding of the Cameroon Bus Booking seat-inventory core
(`src/main.py`, `src/schemas.py`).

Timestamps are modelled as integers (seconds); the 10-minute lock TTL of
`LOCK_DURATION_MINUTES = 10` becomes `600` seconds.  Mongo documents become
Lean structures; the per-trip mutations of `lock_seats`,
`create_reservation`, `paypal_capture` and `_cleanup_expired_locks` become
pure functions, and the whole service becomes a step function on a system
state holding the `trip` and `reservation` collections (documents addressed
by their list index, standing for Mongo ObjectIds).
-/

namespace BusBooking

/-- `SEAT_COUNT = 68` from `main.py`. -/
def SEAT_COUNT : Int := 68

/-- The lock TTL: `LOCK_DURATION_MINUTES = 10` minutes, in seconds. -/
def LOCK_DURATION : Int := 600

/-- One entry of a trip's `locked_seats` list: `{"seat": s, "expires": iso}`. -/
structure SeatLock where
  seat : Int
  expires : Int
deriving DecidableEq, Repr

/-- The `Trip` document fields the core reads and writes.  `prix` is the
per-seat price, `capacite` the capacity (68 for every trip the system
creates), `booked_seats` the permanently sold seats, `locked_seats` the
transient holds. -/
structure Trip where
  prix : Int
  capacite : Int
  booked_seats : List Int
  locked_seats : List SeatLock
deriving DecidableEq, Repr

/-- The `Reservation` document.  `trip_id` is the index of the trip in the
system state's trip collection. -/
structure Reservation where
  trip_id : Nat
  seats : List Int
  montant_total : Int
  statut : String
  nom_complet : String
  telephone : String
  email : Option String
  paypal_order_id : Option String
  ticket_no : Option String
  paid_at : Option Int
deriving DecidableEq, Repr

/-- The HTTP error responses the core raises (`HTTPException`s of
`main.py`): 404s, the 400 "Siège invalide", and the three 409 conflicts. -/
inductive ApiError where
  | tripNotFound
  | reservationNotFound
  | invalidSeat (s : Int)
  | seatAlreadyBooked (s : Int)
  | seatLocked (s : Int)
  | lockExpired (s : Int)
deriving DecidableEq, Repr

/-- `_cleanup_expired_locks`: keep exactly the entries with `expires > now`. -/
def cleanupLocks (now : Int) (locks : List SeatLock) : List SeatLock :=
  locks.filter (fun l => now < l.expires)

/-- `_cleanup_expired_locks` applied to a trip document. -/
def cleanupTrip (now : Int) (trip : Trip) : Trip :=
  { trip with locked_seats := cleanupLocks now trip.locked_seats }

/-- The per-seat validation of `lock_seats` (lines 103-109 of `main.py`):
range check against the constant `SEAT_COUNT`, then the booked check, then
the unexpired-lock check, in that order; `none` means the seat passes. -/
def lockSeatCheck (booked : List Int) (locks : List SeatLock) (now : Int)
    (s : Int) : Option ApiError :=
  if s < 1 ∨ s > SEAT_COUNT then some (.invalidSeat s)
  else if s ∈ booked then some (.seatAlreadyBooked s)
  else if ∃ l ∈ locks, l.seat = s ∧ now < l.expires then some (.seatLocked s)
  else none

/-- The `for s in payload.seats` loops: the first seat (in request order)
whose check raises determines the error; `none` when every seat passes. -/
def firstSeatError (check : Int → Option ApiError) : List Int → Option ApiError
  | [] => none
  | s :: rest =>
    match check s with
    | some e => some e
    | none => firstSeatError check rest

/-- The new lock entries built on a successful acquire (line 111):
one `(seat, now + ttl)` entry per occurrence in the request list. -/
def mkLocks (seats : List Int) (now : Int) : List SeatLock :=
  seats.map (fun s => { seat := s, expires := now + LOCK_DURATION })

/-- `lock_seats` on an existing trip: cleanup, validate every requested
seat, and only then push the new lock entries.  The returned trip is the
re-read document on success. -/
def lock_seats (trip : Trip) (seats : List Int) (now : Int) :
    Except ApiError Trip :=
  let t := cleanupTrip now trip
  match firstSeatError (lockSeatCheck t.booked_seats t.locked_seats now) seats with
  | some e => .error e
  | none => .ok { t with locked_seats := t.locked_seats ++ mkLocks seats now }

/-- The stored trip document after a `lock_seats` call: on failure the only
mutation is the expiry cleanup; on success the re-read updated trip. -/
def lock_seats_state (trip : Trip) (seats : List Int) (now : Int) : Trip :=
  match lock_seats trip seats now with
  | .error _ => cleanupTrip now trip
  | .ok t => t

/-- The per-seat validation of `create_reservation` (lines 135-140):
booked check first, then the unexpired-lock requirement; no range check. -/
def reserveSeatCheck (booked : List Int) (locks : List SeatLock) (now : Int)
    (s : Int) : Option ApiError :=
  if s ∈ booked then some (.seatAlreadyBooked s)
  else if ∃ l ∈ locks, l.seat = s ∧ now < l.expires then none
  else some (.lockExpired s)

/-- `create_reservation` on an existing trip, returning the computed
`montant_total = len(seats) * trip.prix` on success. -/
def create_reservation (trip : Trip) (seats : List Int) (now : Int) :
    Except ApiError Int :=
  let t := cleanupTrip now trip
  match firstSeatError (reserveSeatCheck t.booked_seats t.locked_seats now) seats with
  | some e => .error e
  | none => .ok ((seats.length : Int) * trip.prix)

/-- Python `s[-6:]`: the last six characters (the whole string when
shorter). -/
def lastSix (s : String) : String := ⟨s.data.drop (s.data.length - 6)⟩

/-- Line 180: `f"CBB-{str(reservation_id)[-6:].upper()}-{int(datetime.now().timestamp())}"`. -/
def ticket_no (reservation_id : String) (ts : Int) : String :=
  "CBB-" ++ (lastSix reservation_id).toUpper ++ "-" ++ toString ts

/-- Mongo `$addToSet` with `$each`: append each element not already
present, in order, skipping duplicates against the array and against
earlier appended elements. -/
def addToSet (arr : List Int) (xs : List Int) : List Int :=
  xs.foldl (fun acc x => if x ∈ acc then acc else acc ++ [x]) arr

/-- The `$set` applied to the reservation by `paypal_capture` (lines
181-184): status paid, order id, generated ticket number, paid timestamp. -/
def capturePaid (r : Reservation) (rid : Nat) (oid : String) (now : Int) :
    Reservation :=
  { r with statut := "paid", paypal_order_id := some oid,
           ticket_no := some (ticket_no (toString rid) now),
           paid_at := some now }

theorem capturePaid_statut (r : Reservation) (rid : Nat) (oid : String)
    (now : Int) : (capturePaid r rid oid now).statut = "paid" := rfl

/-- The whole service state: the `trip` and `reservation` collections. -/
structure SysState where
  trips : List Trip
  reservations : List Reservation
deriving DecidableEq, Repr

def initState : SysState := { trips := [], reservations := [] }

/-- The trip-creating branch of `search_or_create_trip`: a fresh trip with
the route's price (or the 8000 default), capacity 68, no seats taken. -/
def stepCreateTrip (st : SysState) (prix : Int) : SysState :=
  { st with trips := st.trips ++
      [{ prix := prix, capacite := SEAT_COUNT, booked_seats := [],
         locked_seats := [] }] }

/-- `get_trip` / the existing-trip branch of search: expiry cleanup only. -/
def applyCleanup (st : SysState) (tid : Nat) (now : Int) : SysState :=
  match st.trips[tid]? with
  | none => st
  | some tr => { st with trips := st.trips.set tid (cleanupTrip now tr) }

/-- `lock_seats` as a state transition (404 on a missing trip leaves the
state unchanged). -/
def stepLock (st : SysState) (tid : Nat) (seats : List Int) (now : Int) :
    SysState :=
  match st.trips[tid]? with
  | none => st
  | some tr => { st with trips := st.trips.set tid (lock_seats_state tr seats now) }

/-- `create_reservation` as a state transition: cleanup is persisted even
on failure; on success a pending reservation document is inserted. -/
def stepReserve (st : SysState) (tid : Nat) (seats : List Int)
    (nom tel : String) (email : Option String) (now : Int) : SysState :=
  match st.trips[tid]? with
  | none => st
  | some tr =>
    let t := cleanupTrip now tr
    let st1 := { st with trips := st.trips.set tid t }
    match firstSeatError (reserveSeatCheck t.booked_seats t.locked_seats now) seats with
    | some _ => st1
    | none =>
      { st1 with reservations := st1.reservations ++
          [{ trip_id := tid, seats := seats,
             montant_total := (seats.length : Int) * tr.prix,
             statut := "pending", nom_complet := nom, telephone := tel,
             email := email, paypal_order_id := none, ticket_no := none,
             paid_at := none }] }

/-- `paypal_capture` as a state transition: no cleanup, no re-validation;
on a non-paid reservation whose trip exists it `$addToSet`s the seats into
`booked_seats`, marks the reservation paid, and `$pull`s every lock entry
whose seat is in the reservation's seat list. -/
def stepCapture (st : SysState) (rid : Nat) (oid : String) (now : Int) :
    SysState :=
  match st.reservations[rid]? with
  | none => st
  | some r =>
    if r.statut = "paid" then st
    else match st.trips[r.trip_id]? with
      | none => st
      | some tr =>
        let tr2 := { tr with
          booked_seats := addToSet tr.booked_seats r.seats,
          locked_seats := tr.locked_seats.filter (fun l => l.seat ∉ r.seats) }
        { st with trips := st.trips.set r.trip_id tr2,
                  reservations := st.reservations.set rid (capturePaid r rid oid now) }

/-- The HTTP response body of `paypal_capture`: the `already_paid` marker
dict, or the serialized (re-read) reservation. -/
inductive CaptureResponse where
  | alreadyPaid
  | record (r : Reservation)
deriving DecidableEq, Repr

/-- The value `paypal_capture` returns (alongside the state change
`stepCapture`). -/
def captureResponse (st : SysState) (rid : Nat) (oid : String) (now : Int) :
    Except ApiError CaptureResponse :=
  match st.reservations[rid]? with
  | none => .error .reservationNotFound
  | some r =>
    if r.statut = "paid" then .ok .alreadyPaid
    else match st.trips[r.trip_id]? with
      | none => .error .tripNotFound
      | some _ => .ok (.record (capturePaid r rid oid now))

/-- The core operations, each invoked at some timestamp. -/
inductive Op where
  | createTrip (prix : Int)
  | getTrip (tid : Nat)
  | lockOp (tid : Nat) (seats : List Int)
  | reserveOp (tid : Nat) (seats : List Int) (nom tel : String) (email : Option String)
  | captureOp (rid : Nat) (oid : String)
deriving DecidableEq, Repr

def step (st : SysState) : Int × Op → SysState
  | (_, .createTrip prix) => stepCreateTrip st prix
  | (now, .getTrip tid) => applyCleanup st tid now
  | (now, .lockOp tid seats) => stepLock st tid seats now
  | (now, .reserveOp tid seats nom tel email) => stepReserve st tid seats nom tel email now
  | (now, .captureOp rid oid) => stepCapture st rid oid now

/-- Run a timed operation sequence from the empty collections. -/
def run (ops : List (Int × Op)) : SysState := ops.foldl step initState

end BusBooking

namespace BusBooking

/-! ### Helper lemmas -/

theorem firstSeatError_eq_none {check : Int → Option ApiError} :
    ∀ {seats : List Int}, firstSeatError check seats = none ↔
      ∀ s ∈ seats, check s = none := by
  intro seats
  induction seats with
  | nil => simp [firstSeatError]
  | cons s rest ih =>
    simp only [firstSeatError, List.mem_cons]
    cases h : check s with
    | some e => simp [h]
    | none =>
      simp only [h]
      constructor
      · intro hrest t ht
        rcases ht with rfl | ht
        · exact h
        · exact ih.mp hrest t ht
      · intro hall
        exact ih.mpr (fun t ht => hall t (Or.inr ht))

theorem firstSeatError_eq_some {check : Int → Option ApiError} :
    ∀ {seats : List Int} {e : ApiError},
      firstSeatError check seats = some e → ∃ s ∈ seats, check s = some e := by
  intro seats
  induction seats with
  | nil => intro e h; simp [firstSeatError] at h
  | cons s rest ih =>
    intro e h
    simp only [firstSeatError] at h
    cases hc : check s with
    | some e2 =>
      rw [hc] at h
      exact ⟨s, List.mem_cons_self s rest, hc.trans h⟩
    | none =>
      rw [hc] at h
      obtain ⟨t, ht, hcheck⟩ := ih h
      exact ⟨t, List.mem_cons_of_mem s ht, hcheck⟩

theorem mem_cleanupLocks {now : Int} {locks : List SeatLock} {l : SeatLock} :
    l ∈ cleanupLocks now locks ↔ l ∈ locks ∧ now < l.expires := by
  simp [cleanupLocks, List.mem_filter]

theorem exists_unexpired_cleanup {now : Int} {locks : List SeatLock} {s : Int} :
    (∃ l ∈ cleanupLocks now locks, l.seat = s ∧ now < l.expires) ↔
      ∃ l ∈ locks, l.seat = s ∧ now < l.expires := by
  constructor
  · rintro ⟨l, hl, hs, he⟩
    exact ⟨l, (mem_cleanupLocks.mp hl).1, hs, he⟩
  · rintro ⟨l, hl, hs, he⟩
    exact ⟨l, mem_cleanupLocks.mpr ⟨hl, he⟩, hs, he⟩

theorem lockSeatCheck_eq_none {booked : List Int} {locks : List SeatLock}
    {now s : Int} :
    lockSeatCheck booked locks now s = none ↔
      (1 ≤ s ∧ s ≤ SEAT_COUNT) ∧ s ∉ booked ∧
        ¬ ∃ l ∈ locks, l.seat = s ∧ now < l.expires := by
  unfold lockSeatCheck
  split_ifs with h1 h2 h3 <;>
    simp_all <;> omega

theorem lockSeatCheck_invalid {booked : List Int} {locks : List SeatLock}
    {now s t : Int} :
    lockSeatCheck booked locks now s = some (ApiError.invalidSeat t) →
      t = s ∧ (s < 1 ∨ s > SEAT_COUNT) := by
  unfold lockSeatCheck
  split_ifs with h1 h2 h3 <;> intro h <;> simp_all

theorem lockSeatCheck_booked {booked : List Int} {locks : List SeatLock}
    {now s t : Int} :
    lockSeatCheck booked locks now s = some (ApiError.seatAlreadyBooked t) →
      t = s ∧ 1 ≤ s ∧ s ≤ SEAT_COUNT ∧ s ∈ booked := by
  unfold lockSeatCheck
  split_ifs with h1 h2 h3 <;> intro h <;> simp_all <;> omega

theorem lockSeatCheck_locked {booked : List Int} {locks : List SeatLock}
    {now s t : Int} :
    lockSeatCheck booked locks now s = some (ApiError.seatLocked t) →
      t = s ∧ 1 ≤ s ∧ s ≤ SEAT_COUNT ∧ s ∉ booked ∧
        ∃ l ∈ locks, l.seat = s ∧ now < l.expires := by
  unfold lockSeatCheck
  split_ifs with h1 h2 h3 <;> intro h <;> simp_all <;> omega

theorem lockSeatCheck_eq_some_imp {booked : List Int} {locks : List SeatLock}
    {now s : Int} {e : ApiError}
    (h : lockSeatCheck booked locks now s = some e) :
    (s < 1 ∨ s > SEAT_COUNT) ∨ s ∈ booked ∨
      ∃ l ∈ locks, l.seat = s ∧ now < l.expires := by
  unfold lockSeatCheck at h
  split_ifs at h with h1 h2 h3
  · exact Or.inl h1
  · exact Or.inr (Or.inl h2)
  · exact Or.inr (Or.inr h3)

theorem reserveSeatCheck_eq_none {booked : List Int} {locks : List SeatLock}
    {now s : Int} :
    reserveSeatCheck booked locks now s = none ↔
      s ∉ booked ∧ ∃ l ∈ locks, l.seat = s ∧ now < l.expires := by
  unfold reserveSeatCheck
  split_ifs with h1 h2 <;> simp_all

theorem reserveSeatCheck_booked {booked : List Int} {locks : List SeatLock}
    {now s t : Int} :
    reserveSeatCheck booked locks now s = some (ApiError.seatAlreadyBooked t) →
      t = s ∧ s ∈ booked := by
  unfold reserveSeatCheck
  split_ifs with h1 h2 <;> intro h <;> simp_all

theorem reserveSeatCheck_expired {booked : List Int} {locks : List SeatLock}
    {now s t : Int} :
    reserveSeatCheck booked locks now s = some (ApiError.lockExpired t) →
      t = s ∧ s ∉ booked ∧ ¬ ∃ l ∈ locks, l.seat = s ∧ now < l.expires := by
  unfold reserveSeatCheck
  split_ifs with h1 h2 <;> intro h <;> simp_all

theorem mem_addToSet {arr xs : List Int} {x : Int} :
    x ∈ addToSet arr xs ↔ x ∈ arr ∨ x ∈ xs := by
  induction xs generalizing arr with
  | nil => simp [addToSet]
  | cons y ys ih =>
    show x ∈ addToSet (if y ∈ arr then arr else arr ++ [y]) ys ↔ _
    rw [ih]
    by_cases hy : y ∈ arr
    · simp only [if_pos hy, List.mem_cons]
      constructor
      · rintro (h | h)
        · exact Or.inl h
        · exact Or.inr (Or.inr h)
      · rintro (h | rfl | h)
        · exact Or.inl h
        · exact Or.inl hy
        · exact Or.inr h
    · simp only [if_neg hy, List.mem_append, List.mem_singleton, List.mem_cons]
      tauto

theorem nodup_addToSet {arr xs : List Int} (h : arr.Nodup) :
    (addToSet arr xs).Nodup := by
  induction xs generalizing arr with
  | nil => exact h
  | cons y ys ih =>
    show (addToSet (if y ∈ arr then arr else arr ++ [y]) ys).Nodup
    by_cases hy : y ∈ arr
    · rw [if_pos hy]; exact ih h
    · rw [if_neg hy]
      exact ih (by simp [List.nodup_append, h, hy])

end BusBooking

namespace BusBooking

/-! ### Unfolding lemmas for the operations -/

/-- The trip stored by a successful acquire: the cleaned lock list extended
with one new entry per requested seat. -/
def lockSuccessTrip (trip : Trip) (seats : List Int) (now : Int) : Trip :=
  { trip with locked_seats := cleanupLocks now trip.locked_seats ++ mkLocks seats now }

theorem lock_seats_of_some {trip : Trip} {seats : List Int} {now : Int} {e : ApiError}
    (h : firstSeatError (lockSeatCheck trip.booked_seats
        (cleanupLocks now trip.locked_seats) now) seats = some e) :
    lock_seats trip seats now = .error e := by
  show (match firstSeatError (lockSeatCheck trip.booked_seats
      (cleanupLocks now trip.locked_seats) now) seats with
    | some e => Except.error e
    | none => Except.ok (lockSuccessTrip trip seats now)) = Except.error e
  rw [h]

theorem lock_seats_of_none {trip : Trip} {seats : List Int} {now : Int}
    (h : firstSeatError (lockSeatCheck trip.booked_seats
        (cleanupLocks now trip.locked_seats) now) seats = none) :
    lock_seats trip seats now = .ok (lockSuccessTrip trip seats now) := by
  show (match firstSeatError (lockSeatCheck trip.booked_seats
      (cleanupLocks now trip.locked_seats) now) seats with
    | some e => Except.error e
    | none => Except.ok (lockSuccessTrip trip seats now)) = Except.ok (lockSuccessTrip trip seats now)
  rw [h]

theorem lock_seats_error_elim {trip : Trip} {seats : List Int} {now : Int} {e : ApiError}
    (h : lock_seats trip seats now = .error e) :
    firstSeatError (lockSeatCheck trip.booked_seats
      (cleanupLocks now trip.locked_seats) now) seats = some e := by
  cases hfe : firstSeatError (lockSeatCheck trip.booked_seats
      (cleanupLocks now trip.locked_seats) now) seats with
  | some e2 =>
    rw [lock_seats_of_some hfe] at h
    injection h with h2
    rw [h2]
  | none =>
    rw [lock_seats_of_none hfe] at h
    exact absurd h (by simp)

theorem lock_seats_ok_elim {trip : Trip} {seats : List Int} {now : Int} {t : Trip}
    (h : lock_seats trip seats now = .ok t) :
    firstSeatError (lockSeatCheck trip.booked_seats
      (cleanupLocks now trip.locked_seats) now) seats = none ∧
    t = lockSuccessTrip trip seats now := by
  cases hfe : firstSeatError (lockSeatCheck trip.booked_seats
      (cleanupLocks now trip.locked_seats) now) seats with
  | some e2 =>
    rw [lock_seats_of_some hfe] at h
    exact absurd h (by simp)
  | none =>
    rw [lock_seats_of_none hfe] at h
    injection h with h2
    exact ⟨rfl, h2.symm⟩

theorem lock_seats_state_error {trip : Trip} {seats : List Int} {now : Int} {e : ApiError}
    (h : lock_seats trip seats now = .error e) :
    lock_seats_state trip seats now = cleanupTrip now trip := by
  unfold lock_seats_state
  rw [h]

theorem lock_seats_state_ok {trip : Trip} {seats : List Int} {now : Int} {t : Trip}
    (h : lock_seats trip seats now = .ok t) :
    lock_seats_state trip seats now = t := by
  unfold lock_seats_state
  rw [h]

theorem create_reservation_of_some {trip : Trip} {seats : List Int} {now : Int} {e : ApiError}
    (h : firstSeatError (reserveSeatCheck trip.booked_seats
        (cleanupLocks now trip.locked_seats) now) seats = some e) :
    create_reservation trip seats now = .error e := by
  show (match firstSeatError (reserveSeatCheck trip.booked_seats
      (cleanupLocks now trip.locked_seats) now) seats with
    | some e => Except.error e
    | none => Except.ok ((seats.length : Int) * trip.prix)) = Except.error e
  rw [h]

theorem create_reservation_of_none {trip : Trip} {seats : List Int} {now : Int}
    (h : firstSeatError (reserveSeatCheck trip.booked_seats
        (cleanupLocks now trip.locked_seats) now) seats = none) :
    create_reservation trip seats now = .ok ((seats.length : Int) * trip.prix) := by
  show (match firstSeatError (reserveSeatCheck trip.booked_seats
      (cleanupLocks now trip.locked_seats) now) seats with
    | some e => Except.error e
    | none => Except.ok ((seats.length : Int) * trip.prix)) = Except.ok ((seats.length : Int) * trip.prix)
  rw [h]

theorem create_reservation_error_elim {trip : Trip} {seats : List Int} {now : Int} {e : ApiError}
    (h : create_reservation trip seats now = .error e) :
    firstSeatError (reserveSeatCheck trip.booked_seats
      (cleanupLocks now trip.locked_seats) now) seats = some e := by
  cases hfe : firstSeatError (reserveSeatCheck trip.booked_seats
      (cleanupLocks now trip.locked_seats) now) seats with
  | some e2 =>
    rw [create_reservation_of_some hfe] at h
    injection h with h2
    rw [h2]
  | none =>
    rw [create_reservation_of_none hfe] at h
    exact absurd h (by simp)

/-- `stepReserve`, split into its three outcomes. -/
theorem stepReserve_eq (st : SysState) (tid : Nat) (seats : List Int)
    (nom tel : String) (email : Option String) (now : Int) :
    stepReserve st tid seats nom tel email now =
      match st.trips[tid]? with
      | none => st
      | some tr =>
        match firstSeatError (reserveSeatCheck tr.booked_seats
            (cleanupLocks now tr.locked_seats) now) seats with
        | some _ => { st with trips := st.trips.set tid (cleanupTrip now tr) }
        | none =>
          { trips := st.trips.set tid (cleanupTrip now tr),
            reservations := st.reservations ++
              [{ trip_id := tid, seats := seats,
                 montant_total := (seats.length : Int) * tr.prix,
                 statut := "pending", nom_complet := nom, telephone := tel,
                 email := email, paypal_order_id := none, ticket_no := none,
                 paid_at := none }] } := rfl

/-- `stepCapture`, split into its four outcomes. -/
theorem stepCapture_eq (st : SysState) (rid : Nat) (oid : String) (now : Int) :
    stepCapture st rid oid now =
      match st.reservations[rid]? with
      | none => st
      | some r =>
        if r.statut = "paid" then st
        else match st.trips[r.trip_id]? with
          | none => st
          | some tr =>
            { trips := st.trips.set r.trip_id
                { tr with
                  booked_seats := addToSet tr.booked_seats r.seats,
                  locked_seats := tr.locked_seats.filter (fun l => l.seat ∉ r.seats) },
              reservations := st.reservations.set rid (capturePaid r rid oid now) } := rfl

/-! ### The no-lock-on-booked invariant -/

/-- No lock entry (expired or not) mentions a booked seat of its trip. -/
def TripInv (tr : Trip) : Prop :=
  ∀ l ∈ tr.locked_seats, l.seat ∉ tr.booked_seats

/-- The invariant over the whole trip collection. -/
def SysInv (st : SysState) : Prop :=
  ∀ tr ∈ st.trips, TripInv tr

theorem tripInv_cleanup {now : Int} {tr : Trip} (h : TripInv tr) :
    TripInv (cleanupTrip now tr) := by
  intro l hl
  exact h l (mem_cleanupLocks.mp hl).1

theorem tripInv_lockSuccessTrip {tr : Trip} {seats : List Int} {now : Int}
    (h : TripInv tr)
    (hfe : firstSeatError (lockSeatCheck tr.booked_seats
        (cleanupLocks now tr.locked_seats) now) seats = none) :
    TripInv (lockSuccessTrip tr seats now) := by
  intro l hl
  rcases List.mem_append.mp hl with hold | hnew
  · exact h l (mem_cleanupLocks.mp hold).1
  · obtain ⟨s, hs, rfl⟩ := List.mem_map.mp hnew
    have hchk := firstSeatError_eq_none.mp hfe s hs
    exact (lockSeatCheck_eq_none.mp hchk).2.1

theorem tripInv_lock_seats_state {tr : Trip} {seats : List Int} {now : Int}
    (h : TripInv tr) : TripInv (lock_seats_state tr seats now) := by
  cases hres : lock_seats tr seats now with
  | error e =>
    rw [lock_seats_state_error hres]
    exact tripInv_cleanup h
  | ok t =>
    rw [lock_seats_state_ok hres]
    obtain ⟨hfe, rfl⟩ := lock_seats_ok_elim hres
    exact tripInv_lockSuccessTrip h hfe

theorem sysInv_set {st : SysState} {i : Nat} {tr : Trip}
    (h : SysInv st) (htr : TripInv tr) :
    ∀ tr2 ∈ st.trips.set i tr, TripInv tr2 := by
  intro tr2 h2
  rcases List.mem_or_eq_of_mem_set h2 with hmem | rfl
  · exact h tr2 hmem
  · exact htr

theorem sysInv_step {st : SysState} (h : SysInv st) (now : Int) (op : Op) :
    SysInv (step st (now, op)) := by
  cases op with
  | createTrip prix =>
    intro tr htr
    rcases List.mem_append.mp htr with hmem | hnew
    · exact h tr hmem
    · rcases List.mem_singleton.mp hnew with rfl
      intro l hl
      simp at hl
  | getTrip tid =>
    show SysInv (applyCleanup st tid now)
    unfold applyCleanup
    cases hg : st.trips[tid]? with
    | none => exact h
    | some tr => exact sysInv_set h (tripInv_cleanup (h tr (List.getElem?_mem hg)))
  | lockOp tid seats =>
    show SysInv (stepLock st tid seats now)
    unfold stepLock
    cases hg : st.trips[tid]? with
    | none => exact h
    | some tr =>
      exact sysInv_set h (tripInv_lock_seats_state (h tr (List.getElem?_mem hg)))
  | reserveOp tid seats nom tel email =>
    show SysInv (stepReserve st tid seats nom tel email now)
    rw [stepReserve_eq]
    split
    · exact h
    · rename_i tr hg
      split
      · exact sysInv_set h (tripInv_cleanup (h tr (List.getElem?_mem hg)))
      · exact sysInv_set h (tripInv_cleanup (h tr (List.getElem?_mem hg)))
  | captureOp rid oid =>
    show SysInv (stepCapture st rid oid now)
    rw [stepCapture_eq]
    split
    · exact h
    · rename_i r hr
      split
      · exact h
      · split
        · exact h
        · rename_i tr hg
          apply sysInv_set h
          intro l hl
          have hmem := List.mem_filter.mp hl
          have hseat : l.seat ∉ r.seats := by
            simpa using hmem.2
          have hbooked : l.seat ∉ tr.booked_seats :=
            h tr (List.getElem?_mem hg) l hmem.1
          intro habs
          rcases mem_addToSet.mp habs with hb | hs
          · exact hbooked hb
          · exact hseat hs

theorem sysInv_run (ops : List (Int × Op)) : SysInv (run ops) := by
  have main : ∀ (l : List (Int × Op)) (st : SysState), SysInv st →
      SysInv (l.foldl step st) := by
    intro l
    induction l with
    | nil => intro st hst; exact hst
    | cons p rest ih =>
      intro st hst
      rcases p with ⟨now, op⟩
      exact ih (step st (now, op)) (sysInv_step hst now op)
  have hinit : SysInv initState := by
    intro tr htr
    simp [initState] at htr
  exact main ops initState hinit

end BusBooking

namespace BusBooking

/-! ### Claim theorems -/

/-- Claim C1 (the code violates it): starting from empty collections, the
operation sequence create-trip, lock seat 1, two createPending calls for
seat 1 against the same unexpired lock, then two payment confirmations,
ends with two distinct paid reservations of the same trip both claiming
seat 1 — the seat is sold twice, because `create_reservation` accepts any
party's unexpired lock and `paypal_capture` never re-validates the seats. -/
theorem seat_sold_twice :
    ((run [((0:Int), Op.createTrip 8000), (0, Op.lockOp 0 [1]),
        (1, Op.reserveOp 0 [1] "Alice A" "650000001" none),
        (2, Op.reserveOp 0 [1] "Bob B" "650000002" none),
        (3, Op.captureOp 0 "PAY-A"),
        (4, Op.captureOp 1 "PAY-B")]).reservations.map
      (fun r => (r.statut, r.trip_id, r.seats)))
      = [("paid", 0, [1]), ("paid", 0, [1])] := by decide

/-- Claim C2: in every state reachable by a sequence of core operations,
every trip's `booked_seats` is disjoint from the seat numbers of its
unexpired lock entries — a seat is never simultaneously permanently booked
and transiently held.  (The code in fact maintains the stronger invariant
`SysInv`: no lock entry at all, expired or not, mentions a booked seat.) -/
theorem booked_disjoint_unexpired_locks (ops : List (Int × Op)) (tr : Trip)
    (htr : tr ∈ (run ops).trips) (now s : Int) (hb : s ∈ tr.booked_seats) :
    ¬ ∃ l ∈ tr.locked_seats, l.seat = s ∧ now < l.expires := by
  rintro ⟨l, hl, rfl, _⟩
  exact sysInv_run ops tr htr l hl hb

/-- Witness for C2 at a concrete reachable state: after lock, reserve and
capture of seat 1 the trip is booked `[1]` with an empty lock table. -/
theorem booked_disjoint_unexpired_locks_witness :
    ((⟨8000, 68, [1], []⟩ : Trip) ∈ (run [((0:Int), Op.createTrip 8000),
        (0, Op.lockOp 0 [1]), (1, Op.reserveOp 0 [1] "Ada L" "650000000" none),
        (2, Op.captureOp 0 "PAY-1")]).trips ∧
      (1:Int) ∈ (⟨8000, 68, [1], []⟩ : Trip).booked_seats) ∧
    ¬ ∃ l ∈ (⟨8000, 68, [1], []⟩ : Trip).locked_seats, l.seat = 1 ∧ (5:Int) < l.expires :=
  ⟨⟨by decide, by decide⟩,
    booked_disjoint_unexpired_locks
      [((0:Int), Op.createTrip 8000), (0, Op.lockOp 0 [1]),
        (1, Op.reserveOp 0 [1] "Ada L" "650000000" none), (2, Op.captureOp 0 "PAY-1")]
      ⟨8000, 68, [1], []⟩ (by decide) 5 1 (by decide)⟩

/-- Claim C4: a lock-acquire call is all-or-nothing.  On any failure the
stored trip is exactly the expiry-cleaned trip (no lock entry added, booked
seats untouched); on success the stored trip is the returned one, its
booked seats are unchanged and its lock list is the cleaned list plus
exactly one `(seat, now + LOCK_DURATION)` entry per requested seat. -/
theorem lock_acquire_all_or_nothing (trip : Trip) (seats : List Int) (now : Int) :
    (∀ e, lock_seats trip seats now = Except.error e →
      lock_seats_state trip seats now = cleanupTrip now trip ∧
      (lock_seats_state trip seats now).booked_seats = trip.booked_seats ∧
      (lock_seats_state trip seats now).locked_seats = cleanupLocks now trip.locked_seats) ∧
    (∀ t, lock_seats trip seats now = Except.ok t →
      lock_seats_state trip seats now = t ∧
      t.booked_seats = trip.booked_seats ∧
      t.locked_seats = cleanupLocks now trip.locked_seats ++
        seats.map (fun s => { seat := s, expires := now + LOCK_DURATION })) := by
  constructor
  · intro e he
    rw [lock_seats_state_error he]
    exact ⟨rfl, rfl, rfl⟩
  · intro t ht
    obtain ⟨hfe, rfl⟩ := lock_seats_ok_elim ht
    exact ⟨lock_seats_state_ok ht, rfl, rfl⟩

/-- Witness for C4: locking seats 1 and 2 on a fresh trip stores exactly
the two new entries. -/
theorem lock_acquire_all_or_nothing_witness :
    lock_seats_state ⟨8000, 68, [], []⟩ [1, 2] 0 = ⟨8000, 68, [], [⟨1, 600⟩, ⟨2, 600⟩]⟩ ∧
    (⟨8000, 68, [], [⟨1, 600⟩, ⟨2, 600⟩]⟩ : Trip).booked_seats = (⟨8000, 68, [], []⟩ : Trip).booked_seats :=
  ⟨((lock_acquire_all_or_nothing ⟨8000, 68, [], []⟩ [1, 2] 0).2
      ⟨8000, 68, [], [⟨1, 600⟩, ⟨2, 600⟩]⟩ rfl).1,
   ((lock_acquire_all_or_nothing ⟨8000, 68, [], []⟩ [1, 2] 0).2
      ⟨8000, 68, [], [⟨1, 600⟩, ⟨2, 600⟩]⟩ rfl).2.1⟩

/-- Claim C8: expiry cleanup retains exactly the lock entries with
`expires > now`, never touches `booked_seats`, and an expired lock never
blocks: acquiring a seat that is in range, unbooked, and whose lock
entries are all expired succeeds. -/
theorem cleanup_exact_and_expired_never_blocks (trip : Trip) (now : Int) :
    (∀ l, l ∈ (cleanupTrip now trip).locked_seats ↔
        l ∈ trip.locked_seats ∧ now < l.expires) ∧
    (cleanupTrip now trip).booked_seats = trip.booked_seats ∧
    (∀ s, 1 ≤ s → s ≤ SEAT_COUNT → s ∉ trip.booked_seats →
      (∀ l ∈ trip.locked_seats, l.seat = s → l.expires ≤ now) →
      lock_seats trip [s] now = .ok (lockSuccessTrip trip [s] now)) := by
  refine ⟨fun l => mem_cleanupLocks, rfl, fun s h1 h2 h3 h4 => ?_⟩
  have hchk : lockSeatCheck trip.booked_seats (cleanupLocks now trip.locked_seats) now s = none := by
    apply lockSeatCheck_eq_none.mpr
    refine ⟨⟨h1, h2⟩, h3, ?_⟩
    rintro ⟨l, hl, rfl, he⟩
    exact absurd he (not_lt.mpr (h4 l (mem_cleanupLocks.mp hl).1 rfl))
  apply lock_seats_of_none
  simp [firstSeatError, hchk]

/-- Witness for C8: a lock on seat 1 with `expires = now - 1` does not
block re-acquiring seat 1. -/
theorem cleanup_exact_and_expired_never_blocks_witness :
    lock_seats ⟨8000, 68, [], [⟨1, 99⟩]⟩ [1] 100 =
      .ok (lockSuccessTrip ⟨8000, 68, [], [⟨1, 99⟩]⟩ [1] 100) :=
  (cleanup_exact_and_expired_never_blocks ⟨8000, 68, [], [⟨1, 99⟩]⟩ 100).2.2
    1 (by decide) (by decide) (by decide) (by decide)

/-- Claim C9 (the code violates the uniqueness part): the generated ticket
number is a pure function of the reservation id and confirmation time, but
it only uses the last six characters of the id and the whole second of the
time, so two distinct reservation ids whose last six characters agree,
confirmed in the same second, receive the identical ticket number. -/
theorem ticket_no_collision :
    ("64a000000000000000abcdef" : String) ≠ "64b000000000000000abcdef" ∧
    lastSix "64a000000000000000abcdef" = "abcdef" ∧
    lastSix "64b000000000000000abcdef" = "abcdef" ∧
    ticket_no "64a000000000000000abcdef" 1700000000 =
      ticket_no "64b000000000000000abcdef" 1700000000 := by
  have h1 : lastSix "64a000000000000000abcdef" = "abcdef" := by decide
  have h2 : lastSix "64b000000000000000abcdef" = "abcdef" := by decide
  refine ⟨by decide, h1, h2, ?_⟩
  unfold ticket_no
  rw [h1, h2]

/-- Claim C10: a lock request may list the same seat twice; when the seat
is in range, unbooked and carries no unexpired lock, the request succeeds
and appends one entry per occurrence, leaving two unexpired entries for
the same seat number in the stored lock table. -/
theorem lock_request_duplicate_seats (trip : Trip) (s : Int) (now : Int)
    (h1 : 1 ≤ s) (h2 : s ≤ SEAT_COUNT) (h3 : s ∉ trip.booked_seats)
    (h4 : ∀ l ∈ trip.locked_seats, l.seat = s → l.expires ≤ now) :
    lock_seats trip [s, s] now = .ok (lockSuccessTrip trip [s, s] now) ∧
    (lock_seats_state trip [s, s] now).locked_seats =
      cleanupLocks now trip.locked_seats ++
        [⟨s, now + LOCK_DURATION⟩, ⟨s, now + LOCK_DURATION⟩] ∧
    2 ≤ List.count (⟨s, now + LOCK_DURATION⟩ : SeatLock)
        (lock_seats_state trip [s, s] now).locked_seats := by
  have hchk : lockSeatCheck trip.booked_seats (cleanupLocks now trip.locked_seats) now s = none := by
    apply lockSeatCheck_eq_none.mpr
    refine ⟨⟨h1, h2⟩, h3, ?_⟩
    rintro ⟨l, hl, rfl, he⟩
    exact absurd he (not_lt.mpr (h4 l (mem_cleanupLocks.mp hl).1 rfl))
  have hok : lock_seats trip [s, s] now = .ok (lockSuccessTrip trip [s, s] now) := by
    apply lock_seats_of_none
    simp [firstSeatError, hchk]
  have hst := lock_seats_state_ok hok
  refine ⟨hok, ?_, ?_⟩
  · rw [hst]; rfl
  · rw [hst]
    show 2 ≤ List.count _ (cleanupLocks now trip.locked_seats ++
      [⟨s, now + LOCK_DURATION⟩, ⟨s, now + LOCK_DURATION⟩])
    rw [List.count_append]
    have h2eq : List.count (⟨s, now + LOCK_DURATION⟩ : SeatLock)
        [⟨s, now + LOCK_DURATION⟩, ⟨s, now + LOCK_DURATION⟩] = 2 := by
      simp
    omega

/-- Witness for C10: requesting `[7, 7]` on a fresh trip stores two
entries for seat 7. -/
theorem lock_request_duplicate_seats_witness :
    lock_seats ⟨8000, 68, [], []⟩ [7, 7] 0 = .ok (lockSuccessTrip ⟨8000, 68, [], []⟩ [7, 7] 0) ∧
    (lock_seats_state ⟨8000, 68, [], []⟩ [7, 7] 0).locked_seats =
      cleanupLocks 0 [] ++ [⟨7, 600⟩, ⟨7, 600⟩] ∧
    2 ≤ List.count (⟨7, 600⟩ : SeatLock)
        (lock_seats_state ⟨8000, 68, [], []⟩ [7, 7] 0).locked_seats :=
  lock_request_duplicate_seats ⟨8000, 68, [], []⟩ 7 0
    (by decide) (by decide) (by decide) (by decide)

end BusBooking

namespace BusBooking

/-- Claim C3 counterexample: on a 68-seat trip where seat 5 is booked,
requesting `[5, 69]` contains the out-of-range seat 69, yet the call fails
with the SeatAlreadyBooked conflict for seat 5 and not with the
invalid-seat error, because seats are validated one at a time in request
order. -/
theorem lock_error_taxonomy_cex :
    ((69:Int) ∈ [(5:Int), 69] ∧ ((69:Int) < 1 ∨ (69:Int) > SEAT_COUNT)) ∧
    lock_seats ⟨8000, 68, [5], []⟩ [5, 69] 0 = .error (.seatAlreadyBooked 5) ∧
    (Except.error (ApiError.seatAlreadyBooked 5) : Except ApiError Trip)
      ≠ .error (.invalidSeat 69) ∧
    (Except.error (ApiError.seatAlreadyBooked 5) : Except ApiError Trip)
      ≠ .error (.invalidSeat 5) :=
  ⟨by decide, rfl,
   fun h => ApiError.noConfusion (Except.error.inj h),
   fun h => ApiError.noConfusion (Except.error.inj h)⟩

/-- Claim C3 (amended): seats are validated in request order, each seat
checked range, then booked, then unexpired-lock; the call fails exactly
when some requested seat violates one of these, the error names the first
offending seat, and each error kind implies its condition.  A request
whose first offending seat is out of range fails with the invalid-seat
error — in particular a request of just `[0]` or `[69]` fails that way
regardless of trip state — and an unexpired lock held by anyone (the code
does not track lock ownership) makes a single-seat re-acquire fail with
the seat-locked conflict. -/
theorem lock_error_taxonomy (trip : Trip) (seats : List Int) (now : Int) :
    (∀ s, lock_seats trip seats now = .error (.invalidSeat s) →
        s ∈ seats ∧ (s < 1 ∨ s > SEAT_COUNT)) ∧
    (∀ s, lock_seats trip seats now = .error (.seatAlreadyBooked s) →
        s ∈ seats ∧ 1 ≤ s ∧ s ≤ SEAT_COUNT ∧ s ∈ trip.booked_seats) ∧
    (∀ s, lock_seats trip seats now = .error (.seatLocked s) →
        s ∈ seats ∧ 1 ≤ s ∧ s ≤ SEAT_COUNT ∧ s ∉ trip.booked_seats ∧
        ∃ l ∈ trip.locked_seats, l.seat = s ∧ now < l.expires) ∧
    ((∃ e, lock_seats trip seats now = .error e) ↔
      ∃ s ∈ seats, (s < 1 ∨ s > SEAT_COUNT) ∨ s ∈ trip.booked_seats ∨
        ∃ l ∈ trip.locked_seats, l.seat = s ∧ now < l.expires) ∧
    (∀ s, (s < 1 ∨ s > SEAT_COUNT) →
      lock_seats trip [s] now = .error (.invalidSeat s)) ∧
    (∀ s, 1 ≤ s → s ≤ SEAT_COUNT → s ∉ trip.booked_seats →
      (∃ l ∈ trip.locked_seats, l.seat = s ∧ now < l.expires) →
      lock_seats trip [s] now = .error (.seatLocked s)) := by
  refine ⟨?_, ?_, ?_, ⟨?_, ?_⟩, ?_, ?_⟩
  · intro s h
    obtain ⟨s2, hs2, hchk⟩ := firstSeatError_eq_some (lock_seats_error_elim h)
    obtain ⟨rfl, hrange⟩ := lockSeatCheck_invalid hchk
    exact ⟨hs2, hrange⟩
  · intro s h
    obtain ⟨s2, hs2, hchk⟩ := firstSeatError_eq_some (lock_seats_error_elim h)
    obtain ⟨rfl, hge, hle, hb⟩ := lockSeatCheck_booked hchk
    exact ⟨hs2, hge, hle, hb⟩
  · intro s h
    obtain ⟨s2, hs2, hchk⟩ := firstSeatError_eq_some (lock_seats_error_elim h)
    obtain ⟨rfl, hge, hle, hnb, hex⟩ := lockSeatCheck_locked hchk
    exact ⟨hs2, hge, hle, hnb, exists_unexpired_cleanup.mp hex⟩
  · rintro ⟨e, he⟩
    obtain ⟨s, hs, hchk⟩ := firstSeatError_eq_some (lock_seats_error_elim he)
    refine ⟨s, hs, ?_⟩
    rcases lockSeatCheck_eq_some_imp hchk with h1 | h2 | h3
    · exact Or.inl h1
    · exact Or.inr (Or.inl h2)
    · exact Or.inr (Or.inr (exists_unexpired_cleanup.mp h3))
  · rintro ⟨s, hs, hviol⟩
    cases hres : lock_seats trip seats now with
    | error e => exact ⟨e, rfl⟩
    | ok t =>
      obtain ⟨hfe, _⟩ := lock_seats_ok_elim hres
      have hchk := firstSeatError_eq_none.mp hfe s hs
      obtain ⟨⟨hge, hle⟩, hnb, hnl⟩ := lockSeatCheck_eq_none.mp hchk
      rcases hviol with hr | hb | hl2
      · omega
      · exact absurd hb hnb
      · exact absurd (exists_unexpired_cleanup.mpr hl2) hnl
  · intro s hr
    have hchk : lockSeatCheck trip.booked_seats
        (cleanupLocks now trip.locked_seats) now s = some (.invalidSeat s) := by
      unfold lockSeatCheck
      rw [if_pos hr]
    apply lock_seats_of_some
    simp [firstSeatError, hchk]
  · intro s hge hle hnb hex
    have hchk : lockSeatCheck trip.booked_seats
        (cleanupLocks now trip.locked_seats) now s = some (.seatLocked s) := by
      unfold lockSeatCheck
      rw [if_neg (by omega), if_neg hnb, if_pos (exists_unexpired_cleanup.mpr hex)]
    apply lock_seats_of_some
    simp [firstSeatError, hchk]

/-- Witness for (amended) C3: requesting `[69]` on a trip with a booked
seat and a live lock still fails with the invalid-seat error, and
re-acquiring one's own live lock on seat 3 conflicts. -/
theorem lock_error_taxonomy_witness :
    lock_seats ⟨8000, 68, [2], [⟨3, 600⟩]⟩ [69] 0 = .error (.invalidSeat 69) ∧
    lock_seats ⟨8000, 68, [2], [⟨3, 600⟩]⟩ [3] 0 = .error (.seatLocked 3) :=
  ⟨(lock_error_taxonomy ⟨8000, 68, [2], [⟨3, 600⟩]⟩ [69] 0).2.2.2.2.1 69 (by decide),
   (lock_error_taxonomy ⟨8000, 68, [2], [⟨3, 600⟩]⟩ [3] 0).2.2.2.2.2 3
     (by decide) (by decide) (by decide) ⟨⟨3, 600⟩, by decide, by decide, by decide⟩⟩

/-- Claim C5 counterexample: on a trip where seat 2 is booked and no lock
exists, createPending for `[1, 2]` fails with the lock-expired error for
seat 1, not with SeatAlreadyBooked for seat 2, because seats are validated
one at a time in request order. -/
theorem create_reservation_contract_cex :
    ((2:Int) ∈ [(1:Int), 2] ∧ (2:Int) ∈ (⟨8000, 68, [2], []⟩ : Trip).booked_seats) ∧
    create_reservation ⟨8000, 68, [2], []⟩ [1, 2] 0 = .error (.lockExpired 1) ∧
    (Except.error (ApiError.lockExpired 1) : Except ApiError Int)
      ≠ .error (.seatAlreadyBooked 2) ∧
    (Except.error (ApiError.lockExpired 1) : Except ApiError Int)
      ≠ .error (.seatAlreadyBooked 1) :=
  ⟨by decide, rfl,
   fun h => ApiError.noConfusion (Except.error.inj h),
   fun h => ApiError.noConfusion (Except.error.inj h)⟩

/-- Claim C5 (amended): createPending validates seats in request order,
each seat checked booked first then unexpired-lock; a SeatAlreadyBooked
error names a requested booked seat, a lock-expired error names a
requested seat that is unbooked but has no unexpired lock, and when every
requested seat is unbooked and carries an unexpired lock the call succeeds
with `montant_total = len(seats) × trip.prix` computed from the trip's
stored price — in particular `[12, 13]` at price 8000 yields 16000. -/
theorem create_reservation_contract (trip : Trip) (seats : List Int) (now : Int) :
    (∀ s, create_reservation trip seats now = .error (.seatAlreadyBooked s) →
        s ∈ seats ∧ s ∈ trip.booked_seats) ∧
    (∀ s, create_reservation trip seats now = .error (.lockExpired s) →
        s ∈ seats ∧ s ∉ trip.booked_seats ∧
        ¬ ∃ l ∈ trip.locked_seats, l.seat = s ∧ now < l.expires) ∧
    ((∀ s ∈ seats, s ∉ trip.booked_seats ∧
        ∃ l ∈ trip.locked_seats, l.seat = s ∧ now < l.expires) →
      create_reservation trip seats now = .ok ((seats.length : Int) * trip.prix)) ∧
    create_reservation ⟨8000, 68, [], [⟨12, 700⟩, ⟨13, 700⟩]⟩ [12, 13] 0 = .ok 16000 := by
  refine ⟨?_, ?_, ?_, rfl⟩
  · intro s h
    obtain ⟨s2, hs2, hchk⟩ := firstSeatError_eq_some (create_reservation_error_elim h)
    obtain ⟨rfl, hb⟩ := reserveSeatCheck_booked hchk
    exact ⟨hs2, hb⟩
  · intro s h
    obtain ⟨s2, hs2, hchk⟩ := firstSeatError_eq_some (create_reservation_error_elim h)
    obtain ⟨rfl, hnb, hnl⟩ := reserveSeatCheck_expired hchk
    exact ⟨hs2, hnb, fun hx => hnl (exists_unexpired_cleanup.mpr hx)⟩
  · intro hall
    apply create_reservation_of_none
    apply firstSeatError_eq_none.mpr
    intro s hs
    obtain ⟨hnb, hex⟩ := hall s hs
    exact reserveSeatCheck_eq_none.mpr ⟨hnb, exists_unexpired_cleanup.mpr hex⟩

/-- Witness for (amended) C5: with live locks on seats 12 and 13 and price
8000, createPending succeeds and charges 16000. -/
theorem create_reservation_contract_witness :
    create_reservation ⟨8000, 68, [], [⟨12, 700⟩, ⟨13, 700⟩]⟩ [12, 13] 0 =
      .ok (((([12, 13] : List Int).length : Int)) * (8000 : Int)) :=
  (create_reservation_contract ⟨8000, 68, [], [⟨12, 700⟩, ⟨13, 700⟩]⟩ [12, 13] 0).2.2.1
    (by decide)

end BusBooking

namespace BusBooking

/-- Claim C6 counterexample: confirming an already-paid reservation does
not return the existing reservation record — the code returns the bare
`already_paid` marker dict instead (though it does not error and changes
nothing).  Starting from a trip with a live lock and a pending
reservation, the first capture returns the serialized record; the second
returns the marker, which equals no serialized record. -/
theorem capture_returns_marker_cex :
    captureResponse
        (stepCapture ⟨[⟨8000, 68, [], [⟨1, 600⟩]⟩],
          [⟨0, [1], 8000, "pending", "Alice A", "650000001", none, none, none, none⟩]⟩
          0 "PAY-A" 3)
        0 "PAY-A" 4 = .ok .alreadyPaid ∧
    (stepCapture ⟨[⟨8000, 68, [], [⟨1, 600⟩]⟩],
        [⟨0, [1], 8000, "pending", "Alice A", "650000001", none, none, none, none⟩]⟩
        0 "PAY-A" 3).reservations[0]?
      = some (capturePaid
          ⟨0, [1], 8000, "pending", "Alice A", "650000001", none, none, none, none⟩
          0 "PAY-A" 3) ∧
    (Except.ok CaptureResponse.alreadyPaid : Except ApiError CaptureResponse)
      ≠ .ok (.record (capturePaid
          ⟨0, [1], 8000, "pending", "Alice A", "650000001", none, none, none, none⟩
          0 "PAY-A" 3)) :=
  ⟨rfl, rfl, fun h => CaptureResponse.noConfusion (Except.ok.inj h)⟩

/-- Claim C6 (amended): confirming payment on an already-paid reservation
succeeds with the `already_paid` acknowledgement and changes no state, and
a second capture with the same reservation id and order reference leaves
the state exactly as after the first — the final reservation (status,
ticket number, order reference, paid timestamp) is the same and
`booked_seats` is not appended to a second time. -/
theorem capture_idempotent (st : SysState) (rid : Nat) (oid : String)
    (t1 t2 : Int) :
    stepCapture (stepCapture st rid oid t1) rid oid t2 = stepCapture st rid oid t1 ∧
    (∀ r, st.reservations[rid]? = some r → r.statut = "paid" →
      stepCapture st rid oid t1 = st ∧
      captureResponse st rid oid t1 = .ok .alreadyPaid) := by
  constructor
  · cases hr : st.reservations[rid]? with
    | none =>
      have h1 : stepCapture st rid oid t1 = st := by
        simp [stepCapture_eq, hr]
      rw [h1]
      simp [stepCapture_eq, hr]
    | some r =>
      by_cases hpaid : r.statut = "paid"
      · have h1 : stepCapture st rid oid t1 = st := by
          simp [stepCapture_eq, hr, hpaid]
        rw [h1]
        simp [stepCapture_eq, hr, hpaid]
      · cases hg : st.trips[r.trip_id]? with
        | none =>
          have h1 : stepCapture st rid oid t1 = st := by
            simp [stepCapture_eq, hr, hpaid, hg]
          rw [h1]
          simp [stepCapture_eq, hr, hpaid, hg]
        | some tr =>
          have hlt : rid < st.reservations.length := (List.getElem?_eq_some.mp hr).1
          have h1 : stepCapture st rid oid t1 =
              { trips := st.trips.set r.trip_id
                  { tr with booked_seats := addToSet tr.booked_seats r.seats,
                            locked_seats := tr.locked_seats.filter
                              (fun l => l.seat ∉ r.seats) },
                reservations := st.reservations.set rid (capturePaid r rid oid t1) } := by
            simp [stepCapture_eq, hr, hpaid, hg]
          have h2 : (st.reservations.set rid (capturePaid r rid oid t1))[rid]? =
              some (capturePaid r rid oid t1) :=
            List.getElem?_set_eq_of_lt _ hlt
          rw [h1, stepCapture_eq]
          simp only [h2, capturePaid_statut, if_pos]
  · intro r hr hpaid
    constructor
    · simp [stepCapture_eq, hr, hpaid]
    · simp [captureResponse, hr, hpaid]

/-- Witness for (amended) C6: on an already-paid reservation the capture
leaves the state unchanged and acknowledges. -/
theorem capture_idempotent_witness :
    stepCapture ⟨[⟨8000, 68, [1], []⟩],
        [⟨0, [1], 8000, "paid", "Alice A", "650000001", none, some "PAY-A",
          some "CBB-0-3", some 3⟩]⟩ 0 "PAY-A" 9
      = ⟨[⟨8000, 68, [1], []⟩],
          [⟨0, [1], 8000, "paid", "Alice A", "650000001", none, some "PAY-A",
            some "CBB-0-3", some 3⟩]⟩ ∧
    captureResponse ⟨[⟨8000, 68, [1], []⟩],
        [⟨0, [1], 8000, "paid", "Alice A", "650000001", none, some "PAY-A",
          some "CBB-0-3", some 3⟩]⟩ 0 "PAY-A" 9 = .ok .alreadyPaid :=
  (capture_idempotent ⟨[⟨8000, 68, [1], []⟩],
      [⟨0, [1], 8000, "paid", "Alice A", "650000001", none, some "PAY-A",
        some "CBB-0-3", some 3⟩]⟩ 0 "PAY-A" 9 0).2
    ⟨0, [1], 8000, "paid", "Alice A", "650000001", none, some "PAY-A",
      some "CBB-0-3", some 3⟩ rfl rfl

/-- Claim C7: confirming payment of a pending reservation whose trip
exists adds the reservation's seats to the trip's `booked_seats` with
set-union semantics (membership is the union; no duplicate entries are
introduced), removes every lock entry — expired or not — whose seat is in
the reservation's seat list, and stores the reservation as paid with the
order reference, the generated ticket number and `paid_at = now`. -/
theorem capture_books_and_clears (st : SysState) (rid : Nat) (oid : String)
    (now : Int) (r : Reservation) (tr : Trip)
    (hr : st.reservations[rid]? = some r)
    (hpend : r.statut = "pending")
    (ht : st.trips[r.trip_id]? = some tr) :
    ∃ tr2 r2,
      (stepCapture st rid oid now).trips[r.trip_id]? = some tr2 ∧
      (stepCapture st rid oid now).reservations[rid]? = some r2 ∧
      (∀ s, s ∈ tr2.booked_seats ↔ s ∈ tr.booked_seats ∨ s ∈ r.seats) ∧
      (tr.booked_seats.Nodup → tr2.booked_seats.Nodup) ∧
      tr2.locked_seats = tr.locked_seats.filter (fun l => l.seat ∉ r.seats) ∧
      r2.statut = "paid" ∧ r2.paypal_order_id = some oid ∧
      r2.ticket_no = some (ticket_no (toString rid) now) ∧
      r2.paid_at = some now := by
  have hnp : ¬ r.statut = "paid" := by
    rw [hpend]; decide
  have hlt : rid < st.reservations.length := (List.getElem?_eq_some.mp hr).1
  have hlt2 : r.trip_id < st.trips.length := (List.getElem?_eq_some.mp ht).1
  have h1 : stepCapture st rid oid now =
      { trips := st.trips.set r.trip_id
          { tr with booked_seats := addToSet tr.booked_seats r.seats,
                    locked_seats := tr.locked_seats.filter
                      (fun l => l.seat ∉ r.seats) },
        reservations := st.reservations.set rid (capturePaid r rid oid now) } := by
    simp [stepCapture_eq, hr, hnp, ht]
  refine ⟨{ tr with booked_seats := addToSet tr.booked_seats r.seats,
                    locked_seats := tr.locked_seats.filter
                      (fun l => l.seat ∉ r.seats) },
    capturePaid r rid oid now, ?_, ?_, ?_, ?_, rfl, rfl, rfl, rfl, rfl⟩
  · rw [h1]
    exact List.getElem?_set_eq_of_lt _ hlt2
  · rw [h1]
    exact List.getElem?_set_eq_of_lt _ hlt
  · intro s
    exact mem_addToSet
  · intro hnd
    exact nodup_addToSet hnd

/-- Witness for C7 at a concrete pending reservation. -/
theorem capture_books_and_clears_witness :
    ∃ tr2 r2,
      (stepCapture ⟨[⟨8000, 68, [], [⟨1, 600⟩]⟩],
          [⟨0, [1], 8000, "pending", "Bea B", "650000002", none, none, none, none⟩]⟩
          0 "PAY-B" 7).trips[(0:Nat)]? = some tr2 ∧
      (stepCapture ⟨[⟨8000, 68, [], [⟨1, 600⟩]⟩],
          [⟨0, [1], 8000, "pending", "Bea B", "650000002", none, none, none, none⟩]⟩
          0 "PAY-B" 7).reservations[(0:Nat)]? = some r2 ∧
      (∀ s, s ∈ tr2.booked_seats ↔
          s ∈ (⟨8000, 68, [], [⟨1, 600⟩]⟩ : Trip).booked_seats ∨ s ∈ [(1:Int)]) ∧
      ((⟨8000, 68, [], [⟨1, 600⟩]⟩ : Trip).booked_seats.Nodup → tr2.booked_seats.Nodup) ∧
      tr2.locked_seats = (⟨8000, 68, [], [⟨1, 600⟩]⟩ : Trip).locked_seats.filter
        (fun l => l.seat ∉ [(1:Int)]) ∧
      r2.statut = "paid" ∧ r2.paypal_order_id = some "PAY-B" ∧
      r2.ticket_no = some (ticket_no (toString (0:Nat)) 7) ∧
      r2.paid_at = some 7 :=
  capture_books_and_clears
    ⟨[⟨8000, 68, [], [⟨1, 600⟩]⟩],
      [⟨0, [1], 8000, "pending", "Bea B", "650000002", none, none, none, none⟩]⟩
    0 "PAY-B" 7
    ⟨0, [1], 8000, "pending", "Bea B", "650000002", none, none, none, none⟩
    ⟨8000, 68, [], [⟨1, 600⟩]⟩ rfl rfl rfl

end BusBooking
